import Mathlib

/-!
# Verification of the YouTube comment extraction pipeline (src/main.py)

Shallow embedding of the quota tracker, the retrying API gateway, the channel
URL resolver, the reply fetcher, the resumable-state loader and the main
extraction loop of src/main.py, together with theorems settling the frozen
claims about them.

External effects (the YouTube API, the file system, the random number
generator) are modelled as explicit inputs: each remote call site receives the
outcome the external world would have produced, and the persisted files are
threaded through the state.
-/

set_option maxRecDepth 4096

/-- Model of a Python exception value as it flows through src/main.py.
`httpError` carries the HTTP status (e.resp.status) and the reason string
extracted by parse_http_error_reason (None when the payload is unparseable). -/
inductive PyErr where
  | valueError (msg : String)
  | httpError (status : Nat) (reason : Option String)
  | typeError
  | keyError
  | exc (msg : String)
deriving DecidableEq, Repr

/-- Rendering of an exception, modelling str(e) in the Python source. -/
def PyErr.str : PyErr → String
  | .valueError m => m
  | .httpError s _ => "HttpError " ++ toString s
  | .typeError => "TypeError"
  | .keyError => "KeyError"
  | .exc m => m

/-! ## Quota tracking (src/main.py lines 99-134) -/

/-- The QUOTA_COSTS table of src/main.py lines 104-110. -/
def QUOTA_COSTS : List (String × Nat) :=
  [("channels.list", 1), ("playlistItems.list", 1), ("commentThreads.list", 1),
   ("comments.list", 1), ("search.list", 100)]

/-- QUOTA_COSTS.get(operation_type, 0) of line 132. -/
def quotaCost (operation_type : String) : Nat :=
  (QUOTA_COSTS.lookup operation_type).getD 0

/-- track_quota (lines 113-134): adds the cost of the operation to the running
counter.  The global quota_used is threaded explicitly. -/
def track_quota (operation_type : String) (quota_used : Nat) : Nat :=
  quota_used + quotaCost operation_type

/-! ## The retrying gateway api_call_with_retry (src/main.py lines 164-218)

One invocation of the Python callable api_func is modelled by the outcome the
external service produces at each attempt index. -/

/-- Outcome of invoking api_func once (attempt-indexed). -/
inductive ApiAttempt (α : Type) where
  | ok (a : α)
  | httpErr (status : Nat) (reason : Option String)
  | exc (msg : String)
deriving DecidableEq, Repr

/-- What a whole api_call_with_retry invocation produced: a returned value, a
raised exception, or the implicit None that Python returns when the retry
loop body never runs (max_retries = 0). -/
inductive RetryResult (α : Type) where
  | ok (a : α)
  | raised (e : PyErr)
  | implicitNone
deriving DecidableEq, Repr

/-- Observable trace of one api_call_with_retry invocation: its result, the
backoff sleeps performed (in order, in seconds), and the operation types it
passed to track_quota. -/
structure RetryRun (α : Type) where
  result : RetryResult α
  sleeps : List ℚ
  tracked : List String
deriving DecidableEq, Repr

/-- The raised/returned value corresponding to one attempt outcome. -/
def ApiAttempt.escalate : ApiAttempt α → RetryResult α
  | .ok a => .ok a
  | .httpErr s r => .raised (.httpError s r)
  | .exc m => .raised (.exc m)

/-- Is this attempt outcome a retryable failure (status 429 or 503, line 202)? -/
def ApiAttempt.retryable : ApiAttempt α → Bool
  | .httpErr s _ => s == 429 || s == 503
  | _ => false

/-- Is this attempt outcome a failure at all (an exception was raised)? -/
def ApiAttempt.failed : ApiAttempt α → Bool
  | .ok _ => false
  | _ => true

/-- The body of the retry loop of api_call_with_retry, lines 193-218.
`attempt` is the loop index; `fuel` is the number of remaining loop
iterations (maxRetries - attempt) and only drives termination: the branch
conditions mirror the source (attempt < max_retries via the for-range, and
the attempt < max_retries - 1 guard of line 203). -/
def apiRetryGo (apiFunc : Nat → ApiAttempt α) (operationType : Option String)
    (jitter : Nat → ℚ) (maxRetries : Nat) (attempt : Nat) (fuel : Nat) : RetryRun α :=
  match fuel with
  | 0 => ⟨.implicitNone, [], []⟩
  | fuel' + 1 =>
    if attempt < maxRetries then
      match apiFunc attempt with
      | .ok a => ⟨.ok a, [], operationType.toList⟩
      | .httpErr status reason =>
        if status = 429 ∨ status = 503 then
          if attempt < maxRetries - 1 then
            let rest := apiRetryGo apiFunc operationType jitter maxRetries (attempt + 1) fuel'
            ⟨rest.result, ((2 : ℚ) ^ attempt + jitter attempt) :: rest.sleeps, rest.tracked⟩
          else ⟨.raised (.httpError status reason), [], []⟩
        else ⟨.raised (.httpError status reason), [], []⟩
      | .exc m => ⟨.raised (.exc m), [], []⟩
    else ⟨.implicitNone, [], []⟩

/-- api_call_with_retry (lines 164-218).  `jitter n` models the value of
random.uniform(0, 1) drawn before the sleep of attempt n; the caller supplies
it with the contract 0 ≤ jitter n < 1. -/
def api_call_with_retry (apiFunc : Nat → ApiAttempt α) (operationType : Option String)
    (jitter : Nat → ℚ) (maxRetries : Nat) : RetryRun α :=
  apiRetryGo apiFunc operationType jitter maxRetries 0 maxRetries

/-- Did the run return normally? -/
def RetryRun.isOkRun (r : RetryRun α) : Bool :=
  match r.result with
  | .ok _ => true
  | _ => false

/-! ## Interleaved gateway calls, for the quota accounting claim -/

/-- One gateway invocation as the orchestrator performs it: the operation type
for quota tracking and the external behaviour of its api_func. -/
structure GatewayCall (α : Type) where
  operationType : Option String
  apiFunc : Nat → ApiAttempt α
  jitter : Nat → ℚ
  maxRetries : Nat

/-- Execute one gateway call. -/
def gatewayRun (c : GatewayCall α) : RetryRun α :=
  api_call_with_retry c.apiFunc c.operationType c.jitter c.maxRetries

/-- Thread the global quota counter through a sequence of gateway calls: each
call feeds every operation type it tracked (zero or one) to track_quota. -/
def runCalls (calls : List (GatewayCall α)) (quota_used : Nat) : Nat :=
  calls.foldl (fun q c => (gatewayRun c).tracked.foldl (fun q' t => track_quota t q') q) quota_used

/-- The number of calls in the trace that specify the given operation type and
return successfully. -/
def succCount (operationType : String) (calls : List (GatewayCall α)) : Nat :=
  (calls.filter (fun c => c.operationType == some operationType && (gatewayRun c).isOkRun)).length

/-- The quota contribution of one call when its operation type is some kind
other than the one under scrutiny. -/
def otherCost (operationType : String) (c : GatewayCall α) : Nat :=
  match c.operationType with
  | some t => if t = operationType then 0 else if (gatewayRun c).isOkRun then quotaCost t else 0
  | none => 0

/-- Total quota contributed by successful calls of all the other kinds. -/
def othersCost (operationType : String) (calls : List (GatewayCall α)) : Nat :=
  (calls.map (otherCost operationType)).sum

/-! ## Channel URL resolution get_channel_id_from_url (src/main.py lines 279-384)

The URL arrives already split by urllib.parse.urlparse into its network
location and path.  The two API lookups the resolver can perform (search.list
and channels.list with forUsername) are modelled as oracles from the query to
the aggregate result of the api_call_with_retry invocation: a list of channel
ids of the response items on success, or the exception it raised.  On success
the gateway tracked the quota cost of the operation, so the threaded counter
grows by that cost exactly on the success paths. -/

/-- Python str.strip(c): remove the character from both ends.  Implemented on
the character list so that it evaluates by kernel reduction. -/
def pyStrip (c : Char) (s : String) : String :=
  String.mk (((s.toList.dropWhile (· = c)).reverse.dropWhile (· = c)).reverse)

/-- Python str.split(sep) for a single-character separator, on character
lists: splitting never yields the empty list (splitting the empty string
yields one empty field, as in Python). -/
def splitChar (c : Char) : List Char → List (List Char)
  | [] => [[]]
  | x :: xs =>
    if x = c then [] :: splitChar c xs
    else
      match splitChar c xs with
      | [] => [[x]]
      | s :: ss => (x :: s) :: ss

/-- path.strip('/').split('/') of lines 307-308. -/
def pySplitSegments (path : String) : List String :=
  (splitChar '/' (pyStrip '/' path).toList).map String.mk

/-- Python str.startswith(prefix), on character lists so that it evaluates by
kernel reduction. -/
def pyStartsWith (s pre : String) : Bool :=
  pre.toList.isPrefixOf s.toList

/-- Python slicing s[n:], on character lists. -/
def pyDrop (s : String) (n : Nat) : String :=
  String.mk (s.toList.drop n)

/-- The netloc whitelist of line 303. -/
def youtubeNetlocs : List String := ["www.youtube.com", "youtube.com", "m.youtube.com"]

/-- The body of the try block of get_channel_id_from_url (lines 298-378),
before the final except clause.  Returns the result together with the quota
counter.  The search oracle is keyed by the query string q passed to
youtube.search().list, the channelsForUsername oracle by the username. -/
def getChannelIdTry (netloc path : String)
    (search : String → Except PyErr (List String))
    (channelsForUsername : String → Except PyErr (List String))
    (quota_used : Nat) : Except PyErr String × Nat :=
  if netloc ∉ youtubeNetlocs then
    (.error (.valueError ("Invalid YouTube URL: " ++ netloc ++ path)), quota_used)
  else
    let path_segments := pySplitSegments path
    if path_segments.length < 1 then
      (.error (.valueError ("Invalid YouTube channel URL format: " ++ netloc ++ path)), quota_used)
    else
      let seg0 := path_segments.getD 0 ""
      if seg0 = "channel" ∧ 2 ≤ path_segments.length then
        (.ok (path_segments.getD 1 ""), quota_used)
      else if pyStartsWith seg0 "@" then
        let username := pyDrop seg0 1
        match search ("@" ++ username) with
        | .error e => (.error e, quota_used)
        | .ok items =>
          let q1 := track_quota "search.list" quota_used
          match items with
          | [] => (.error (.valueError ("Channel not found for handle: @" ++ username)), q1)
          | channelId :: _ => (.ok channelId, q1)
      else if seg0 = "c" ∧ 2 ≤ path_segments.length then
        let custom_name := path_segments.getD 1 ""
        match search custom_name with
        | .error e => (.error e, quota_used)
        | .ok items =>
          let q1 := track_quota "search.list" quota_used
          match items with
          | [] => (.error (.valueError ("Channel not found for custom name: " ++ custom_name)), q1)
          | channelId :: _ => (.ok channelId, q1)
      else if seg0 = "user" ∧ 2 ≤ path_segments.length then
        let username := path_segments.getD 1 ""
        match channelsForUsername username with
        | .error e => (.error e, quota_used)
        | .ok items =>
          let q1 := track_quota "channels.list" quota_used
          match items with
          | [] => (.error (.valueError ("Channel not found for username: " ++ username)), q1)
          | channelId :: _ => (.ok channelId, q1)
      else
        let potential_id := path_segments.getLast?.getD ""
        if potential_id ≠ "" ∧ potential_id.length = 24 then
          (.ok potential_id, quota_used)
        else
          (.error (.valueError ("Unable to extract channel ID from URL: " ++ netloc ++ path)), quota_used)

/-- get_channel_id_from_url (lines 279-384): the try body wrapped in the
except clause of lines 380-384, which re-raises ValueError unchanged and
wraps every other exception as ValueError("Error parsing URL: " + str(e)). -/
def get_channel_id_from_url (netloc path : String)
    (search : String → Except PyErr (List String))
    (channelsForUsername : String → Except PyErr (List String))
    (quota_used : Nat) : Except PyErr String × Nat :=
  match getChannelIdTry netloc path search channelsForUsername quota_used with
  | (.ok channelId, q) => (.ok channelId, q)
  | (.error e, q) =>
    match e with
    | .valueError m => (.error (.valueError m), q)
    | e => (.error (.valueError ("Error parsing URL: " ++ e.str)), q)

/-! ## Records of the extraction pipeline (src/main.py lines 573-755) -/

/-- A video reference as produced by the playlist listing. -/
structure Video where
  id : String
  title : String
deriving DecidableEq, Repr

/-- The fields the code reads from one commentThreads.list item. -/
structure RawThread where
  textDisplay : String
  publishedAt : String
  likeCount : Nat
  totalReplyCount : Nat
  topCommentId : String
deriving DecidableEq, Repr

/-- A persisted top-level comment record (lines 633-639). -/
structure Comment where
  comment : String
  videoTitle : String
  videoLink : String
  datePostComment : String
  likesCount : Nat
deriving DecidableEq, Repr

/-- The fields the code reads from one comments.list reply item. -/
structure RawReply where
  textDisplay : String
  publishedAt : String
  likeCount : Nat
deriving DecidableEq, Repr

/-- A persisted reply record (lines 722-729). -/
structure SubComment where
  subComment : String
  parentCommentId : String
  videoTitle : String
  videoLinkId : String
  datePostSubComment : String
  likeCount : Nat
deriving DecidableEq, Repr

/-- A failed_reply_fetches entry (lines 908-928). missing_count is a Python
int difference, so it is an integer that can be negative. -/
structure FailedReplyFetch where
  parent_comment_id : String
  video_id : String
  video_title : String
  video_link : String
  expected_count : Nat
  fetched_count : Nat
  missing_count : Int
  err : Option PyErr
deriving DecidableEq, Repr

/-- Aggregate outcome of the paginated fetch inside a try block: either the
accumulated items of all pages, or the exception the paging loop raised
(an HttpError with its parsed reason, or some other exception). -/
inductive FetchOutcome (α : Type) where
  | ok (a : α)
  | httpError (status : Nat) (reason : Option String)
  | exc (msg : String)
deriving DecidableEq, Repr

/-- create_video_link (lines 221-238). -/
def create_video_link (video_id : String) : String :=
  "https://www.youtube.com/watch?v=" ++ video_id

/-- The record construction of fetch_video_comments (lines 573-660): each
thread item becomes a Comment, and every thread with a positive
totalReplyCount contributes a (parent_comment_id, total_reply_count) pair,
in source order.  HttpError from the paging loop is re-raised to the caller,
so the error path is handled at the call site in the main loop. -/
def fetch_video_comments (video_title video_link : String) (items : List RawThread) :
    List Comment × List (String × Nat) :=
  (items.map (fun t =>
      { comment := t.textDisplay, videoTitle := video_title, videoLink := video_link,
        datePostComment := t.publishedAt, likesCount := t.likeCount }),
   (items.filter (fun t => 0 < t.totalReplyCount)).map
      (fun t => (t.topCommentId, t.totalReplyCount)))

/-- fetch_comment_replies (lines 663-753).  The paginated try body is
abstracted by its aggregate outcome; the except clauses are modelled
faithfully: an HttpError whose parsed reason is quotaExceeded is re-raised,
any other HttpError and any other exception are swallowed with a warning and
yield the empty list. -/
def fetch_comment_replies (outcome : FetchOutcome (List RawReply))
    (parent_comment_id video_title video_id : String) : Except PyErr (List SubComment) :=
  match outcome with
  | .ok raws =>
    .ok (raws.map (fun r =>
      { subComment := r.textDisplay, parentCommentId := parent_comment_id,
        videoTitle := video_title, videoLinkId := video_id,
        datePostSubComment := r.publishedAt, likeCount := r.likeCount }))
  | .httpError status reason =>
    if reason = some "quotaExceeded" then .error (.httpError status reason) else .ok []
  | .exc _ => .ok []

/-! ## The extraction orchestrator (src/main.py lines 875-972)

The per-video and per-parent API behaviour is supplied by two oracles keyed by
the video id and the parent comment id.  The state carries the in-memory
master sequences, the persisted file contents (updated by the atomic writes of
lines 969 and 972), the failed-reply bookkeeping, the ids of the videos whose
comment fetch was attempted, and whether the loop was stopped by the
quotaExceeded branch of lines 939-951 (the branch that prints the
graceful-stop message with the quota usage and breaks). -/

/-- The mutable state of the main loop. -/
structure LoopState where
  masterComments : List Comment
  masterSubComments : List SubComment
  commentsFile : List Comment
  subCommentsFile : List SubComment
  failedReplyFetches : List FailedReplyFetch
  attemptedVideos : List String
  stoppedByQuota : Bool
deriving DecidableEq, Repr

/-- One iteration of the per-thread reply loop of lines 899-928: fetch the
replies for one (parent_comment_id, reply_count) pair, extend the sub-comment
accumulator, and append a failed_reply_fetches entry when the fetched count
differs from the expected count (lines 907-916) or when the fetch raised and
the per-reply except Exception of lines 917-928 caught it. -/
def replyStep (rApi : String → FetchOutcome (List RawReply)) (v : Video)
    (video_link : String) (acc : List SubComment × List FailedReplyFetch)
    (p : String × Nat) : List SubComment × List FailedReplyFetch :=
  match fetch_comment_replies (rApi p.1) p.1 v.title v.id with
  | .ok replies =>
    (acc.1 ++ replies,
     if replies.length ≠ p.2 then
       acc.2 ++ [{ parent_comment_id := p.1, video_id := v.id, video_title := v.title,
                   video_link := video_link, expected_count := p.2,
                   fetched_count := replies.length,
                   missing_count := (p.2 : Int) - (replies.length : Int), err := none }]
     else acc.2)
  | .error e =>
    (acc.1,
     acc.2 ++ [{ parent_comment_id := p.1, video_id := v.id, video_title := v.title,
                 video_link := video_link, expected_count := p.2, fetched_count := 0,
                 missing_count := (p.2 : Int), err := some e }])

/-- One iteration of the main for-loop over the worklist (lines 881-972):
fetch the comments of the video, handle the reply pointers, and on success
merge and atomically flush both master sequences; the HttpError handler
distinguishes commentsDisabled (skip), quotaExceeded (set the stop flag and
break) and anything else (skip), and any other exception also skips the
video.  The returned Bool is true when the loop continues to the next video
and false when it breaks. -/
def processVideo (cApi : String → FetchOutcome (List RawThread))
    (rApi : String → FetchOutcome (List RawReply)) (v : Video) (st : LoopState) :
    LoopState × Bool :=
  let video_link := create_video_link v.id
  let st1 := { st with attemptedVideos := st.attemptedVideos ++ [v.id] }
  match cApi v.id with
  | .ok items =>
    let fc := fetch_video_comments v.title video_link items
    let folded := fc.2.foldl (replyStep rApi v video_link) ([], [])
    let master' := st1.masterComments ++ fc.1
    let masterSub' := st1.masterSubComments ++ folded.1
    ({ st1 with masterComments := master', masterSubComments := masterSub',
                failedReplyFetches := st1.failedReplyFetches ++ folded.2,
                commentsFile := master', subCommentsFile := masterSub' }, true)
  | .httpError _ reason =>
    if reason = some "commentsDisabled" then (st1, true)
    else if reason = some "quotaExceeded" then ({ st1 with stoppedByQuota := true }, false)
    else (st1, true)
  | .exc _ => (st1, true)

/-- The main for-loop over the worklist. -/
def mainLoop (cApi : String → FetchOutcome (List RawThread))
    (rApi : String → FetchOutcome (List RawReply)) :
    List Video → LoopState → LoopState
  | [], st => st
  | v :: rest, st =>
    let step := processVideo cApi rApi v st
    if step.2 then mainLoop cApi rApi rest step.1 else step.1

/-- Worklist computation of lines 861-864: keep the videos whose derived link
is not in the processed set, which load_state rebuilds as the set of
videoLink values of the persisted comments (line 413). -/
def worklistFor (videos : List Video) (file_comments : List Comment) : List Video :=
  videos.filter (fun v =>
    !((file_comments.map (fun c => c.videoLink)).contains (create_video_link v.id)))

/-- The loop state right after Step 4 (load existing state): the master
sequences are initialised from the persisted files. -/
def initialLoopState (file_comments : List Comment) (file_subs : List SubComment) : LoopState :=
  { masterComments := file_comments, masterSubComments := file_subs,
    commentsFile := file_comments, subCommentsFile := file_subs,
    failedReplyFetches := [], attemptedVideos := [], stoppedByQuota := false }

/-- One whole run of the extraction pipeline after channel resolution, for a
well-typed pair of persisted files: load state, filter the worklist, run the
main loop. -/
def runPipeline (cApi : String → FetchOutcome (List RawThread))
    (rApi : String → FetchOutcome (List RawReply)) (videos : List Video)
    (file_comments : List Comment) (file_subs : List SubComment) : LoopState :=
  mainLoop cApi rApi (worklistFor videos file_comments)
    (initialLoopState file_comments file_subs)

/-! ## The load boundary load_state / load_sub_comments (src/main.py lines 387-454)

For the load-boundary claim the persisted file is an arbitrary file, not a
well-typed record list, so the file content is modelled as what json.load
yields: a JSON value, a decode failure, or a missing file. -/

/-- A JSON value. -/
inductive JValue where
  | jnull
  | jbool (b : Bool)
  | jnum (n : Int)
  | jstr (s : String)
  | jarr (l : List JValue)
  | jobj (fields : List (String × JValue))

/-- Result of trying to read and json.load a file. -/
inductive FileRead where
  | missing
  | notJson
  | json (j : JValue)

/-- Python comment['videoLink'] on one element of the loaded value: a dict
yields the field or raises KeyError; any non-dict raises TypeError. -/
def videoLinkOf (e : JValue) : Except PyErr JValue :=
  match e with
  | .jobj fields =>
    match fields.lookup "videoLink" with
    | some v => .ok v
    | none => .error .keyError
  | _ => .error .typeError

/-- The generator expression of line 413 consumed by set(...): traverse the
elements in order, stopping at the first exception. -/
def extractLinks : List JValue → Except PyErr (List JValue)
  | [] => .ok []
  | e :: rest =>
    match videoLinkOf e with
    | .error err => .error err
    | .ok v =>
      match extractLinks rest with
      | .error err => .error err
      | .ok vs => .ok (v :: vs)

/-- Iterating Python-style over the loaded JSON value and indexing each
element with 'videoLink': a list iterates its elements; a dict iterates its
keys (strings, so indexing the first one raises TypeError; an empty dict
iterates nothing); a string iterates its characters likewise; every other
value is not iterable and raises TypeError. -/
def iterLinks (j : JValue) : Except PyErr (List JValue) :=
  match j with
  | .jarr l => extractLinks l
  | .jobj [] => .ok []
  | .jobj (_ :: _) => .error .typeError
  | .jstr s => if s = "" then .ok [] else .error .typeError
  | _ => .error .typeError

/-- load_state (lines 387-424).  Returns the processed set (as the list of
extracted videoLink values) and the loaded comments, or the exception that
escaped: the except clause of line 417 catches only json.JSONDecodeError and
KeyError, so other exceptions raised while building the set propagate. -/
def load_state (f : FileRead) : Except PyErr (List JValue × JValue) :=
  match f with
  | .missing => .ok ([], .jarr [])
  | .notJson => .ok ([], .jarr [])
  | .json j =>
    match iterLinks j with
    | .ok links => .ok (links, j)
    | .error .keyError => .ok ([], .jarr [])
    | .error e => .error e

/-- load_sub_comments (lines 427-454): a missing or undecodable file degrades
to the empty list; a decodable file is returned as-is with no shape check. -/
def load_sub_comments (f : FileRead) : Except PyErr JValue :=
  match f with
  | .missing => .ok (.jarr [])
  | .notJson => .ok (.jarr [])
  | .json j => .ok j

/-! ## Derived definitions used by the theorems -/

/-- Quota contributed by one gateway call: the costs of the operations it fed
to track_quota. -/
def callDelta (c : GatewayCall α) : Nat :=
  ((gatewayRun c).tracked.map quotaCost).sum

/-- The invariant that the persisted files hold exactly the in-memory master
sequences (true after load and re-established by every flush). -/
def filesInv (st : LoopState) : Prop :=
  st.commentsFile = st.masterComments ∧ st.subCommentsFile = st.masterSubComments

/-- An outcome that contributes nothing to the master sequences: not a quota
stop, and any successful page set is empty. -/
def inertOutcome (o : FetchOutcome (List RawThread)) : Prop :=
  (∀ s, o ≠ .httpError s (some "quotaExceeded")) ∧ ∀ items, o = .ok items → items = []

/-- The discrepancy record the per-thread loop produces for one reply pointer,
if any: a count mismatch yields the record of lines 908-916, a raised fetch
the record of lines 919-928, and a matching count yields none. -/
def discrepancyOf (rApi : String → FetchOutcome (List RawReply)) (v : Video)
    (video_link : String) (p : String × Nat) : Option FailedReplyFetch :=
  match fetch_comment_replies (rApi p.1) p.1 v.title v.id with
  | .ok replies =>
    if replies.length ≠ p.2 then
      some { parent_comment_id := p.1, video_id := v.id, video_title := v.title,
             video_link := video_link, expected_count := p.2,
             fetched_count := replies.length,
             missing_count := (p.2 : Int) - (replies.length : Int), err := none }
    else none
  | .error e =>
    some { parent_comment_id := p.1, video_id := v.id, video_title := v.title,
           video_link := video_link, expected_count := p.2, fetched_count := 0,
           missing_count := (p.2 : Int), err := some e }

/-! ## Concrete instances used by witnesses and counterexamples -/

/-- A search oracle whose lookup succeeds but returns no items. -/
def emptySearch : String → Except PyErr (List String) := fun _ => .ok []

/-- An api_func that always fails with a non-retryable 500. -/
def alwaysServerError : Nat → ApiAttempt Nat := fun _ => .httpErr 500 none

/-- Comment-fetch oracle for the quota-stop scenario: video a yields two
threads without replies, every other video hits the daily quota. -/
def cApiScenario : String → FetchOutcome (List RawThread) := fun video_id =>
  if video_id = "a" then
    .ok [{ textDisplay := "t1", publishedAt := "d1", likeCount := 1,
           totalReplyCount := 0, topCommentId := "p1" },
         { textDisplay := "t2", publishedAt := "d2", likeCount := 2,
           totalReplyCount := 0, topCommentId := "p2" }]
  else .httpError 403 (some "quotaExceeded")

/-- Reply oracle that always returns no replies. -/
def rApiEmpty : String → FetchOutcome (List RawReply) := fun _ => .ok []

/-- Comment-fetch oracle for the reply-quota bug: video v1 has one thread with
two expected replies, video v2 has no comments. -/
def cApiReplyQuota : String → FetchOutcome (List RawThread) := fun video_id =>
  if video_id = "v1" then
    .ok [{ textDisplay := "c1", publishedAt := "d", likeCount := 0,
           totalReplyCount := 2, topCommentId := "p1" }]
  else .ok []

/-- Reply oracle whose fetch hits the daily quota. -/
def rApiQuota : String → FetchOutcome (List RawReply) := fun _ =>
  .httpError 403 (some "quotaExceeded")

/-- Comment-fetch oracle for a channel whose videos all have zero comments. -/
def cApiNoComments : String → FetchOutcome (List RawThread) := fun _ => .ok []

/-- Comment-fetch oracle for the discrepancy witness: one thread expecting
five replies. -/
def cApiFiveExpected : String → FetchOutcome (List RawThread) := fun _ =>
  .ok [{ textDisplay := "c", publishedAt := "d", likeCount := 0,
         totalReplyCount := 5, topCommentId := "p" }]

/-- Reply oracle that returns three replies. -/
def rApiThree : String → FetchOutcome (List RawReply) := fun _ =>
  .ok [{ textDisplay := "r1", publishedAt := "e1", likeCount := 0 },
       { textDisplay := "r2", publishedAt := "e2", likeCount := 0 },
       { textDisplay := "r3", publishedAt := "e3", likeCount := 0 }]

/-! ## Theorems -/

/-- C4: the claim says load never lets an exception escape: a file that exists
but lacks the expected shape degrades to (empty set, empty list).  The code
disagrees: a syntactically valid JSON file whose top-level list holds a
non-dict element (here the file content [5]) makes the generator of line 413
raise TypeError, which the except clause of line 417 (catching only
json.JSONDecodeError and KeyError) does not stop, contradicting the adjacent
comment "If JSON is corrupted or structure is invalid, log warning and start
fresh". -/
theorem load_state_shape_error_escapes :
    load_state (.json (.jarr [.jnum 5])) = .error .typeError := rfl

/-- C9: get_channel_id_from_url either returns a channel id or raises
ValueError: every error that comes out of the function is a ValueError,
because the final except clause re-raises ValueError unchanged and wraps any
other exception as ValueError("Error parsing URL: ..."). -/
theorem resolution_raises_only_valueerror (netloc path : String)
    (search channelsForUsername : String → Except PyErr (List String))
    (q0 : Nat) (e : PyErr) (q1 : Nat)
    (h : get_channel_id_from_url netloc path search channelsForUsername q0 = (.error e, q1)) :
    ∃ m, e = .valueError m := by
  unfold get_channel_id_from_url at h
  cases hres : getChannelIdTry netloc path search channelsForUsername q0 with
  | mk r q =>
    rw [hres] at h
    cases r with
    | ok cid => simp at h
    | error e0 =>
      cases e0 <;>
        (simp only [Prod.mk.injEq, Except.error.injEq] at h; exact ⟨_, h.1.symm⟩)

/-- Witness for C9 at a concrete failing input: a non-YouTube domain. -/
theorem resolution_raises_only_valueerror_witness :
    ∃ m, PyErr.valueError "Invalid YouTube URL: example.com" = PyErr.valueError m :=
  resolution_raises_only_valueerror "example.com" "" emptySearch emptySearch 0 _ 0 rfl

/-- C10: on a YouTube domain whose path matches none of the four documented
formats, a last path segment of exactly 24 characters is returned as the
channel id with no API call (the quota counter is returned unchanged), and
any other last segment (empty included) makes the function raise ValueError,
again at unchanged quota. -/
theorem channel_id_24char_fallback (netloc path : String)
    (search channelsForUsername : String → Except PyErr (List String)) (q0 : Nat)
    (hn : netloc ∈ youtubeNetlocs)
    (h1 : ¬((pySplitSegments path).getD 0 "" = "channel" ∧ 2 ≤ (pySplitSegments path).length))
    (h2 : pyStartsWith ((pySplitSegments path).getD 0 "") "@" = false)
    (h3 : ¬((pySplitSegments path).getD 0 "" = "c" ∧ 2 ≤ (pySplitSegments path).length))
    (h4 : ¬((pySplitSegments path).getD 0 "" = "user" ∧ 2 ≤ (pySplitSegments path).length)) :
    (((pySplitSegments path).getLast?.getD "").length = 24 →
      get_channel_id_from_url netloc path search channelsForUsername q0
        = (.ok ((pySplitSegments path).getLast?.getD ""), q0))
    ∧ (((pySplitSegments path).getLast?.getD "").length ≠ 24 →
      ∃ m, get_channel_id_from_url netloc path search channelsForUsername q0
        = (.error (.valueError m), q0)) := by
  have hmem : ¬ netloc ∉ youtubeNetlocs := not_not_intro hn
  constructor
  · intro h24
    have hne : (pySplitSegments path).getLast?.getD "" ≠ "" := by
      intro he; rw [he] at h24; simp at h24
    have hlen : ¬ (pySplitSegments path).length < 1 := by
      intro hl
      have hz : pySplitSegments path = [] := List.length_eq_zero.mp (by omega)
      rw [hz] at hne; simp at hne
    simp only [get_channel_id_from_url, getChannelIdTry]
    rw [if_neg hmem, if_neg hlen, if_neg h1, if_neg (by rw [h2]; exact Bool.false_ne_true), if_neg h3, if_neg h4,
      if_pos ⟨hne, h24⟩]
  · intro h24
    simp only [get_channel_id_from_url, getChannelIdTry]
    rw [if_neg hmem]
    by_cases hl : (pySplitSegments path).length < 1
    · rw [if_pos hl]
      exact ⟨_, rfl⟩
    · rw [if_neg hl, if_neg h1, if_neg (by rw [h2]; exact Bool.false_ne_true), if_neg h3, if_neg h4,
        if_neg (by rintro ⟨-, hx⟩; exact h24 hx)]
      exact ⟨_, rfl⟩

/-- Witness for C10: a malformed path whose last segment is a 24-character
string is returned as the channel id at unchanged quota. -/
theorem channel_id_24char_fallback_witness :
    get_channel_id_from_url "www.youtube.com" "/UC0123456789abcdefghijkl"
        emptySearch emptySearch 0
      = (.ok "UC0123456789abcdefghijkl", 0) :=
  (channel_id_24char_fallback "www.youtube.com" "/UC0123456789abcdefghijkl"
      emptySearch emptySearch 0 (by decide) (by decide) (by decide) (by decide)
      (by decide)).1 (by decide)

/-- Counterexample to C7 as stated: resolving the handle @nobody performs a
search.list call that succeeds (100 quota units tracked) and only then finds
no channel; the run aborts on this ValueError with the quota counter at 100,
not 0. -/
theorem resolution_cost_counterexample :
    get_channel_id_from_url "www.youtube.com" "/@nobody" emptySearch emptySearch 0
      = (.error (.valueError "Channel not found for handle: @nobody"), 100)
    ∧ (100 : Nat) ≠ 0 := by
  constructor
  · rfl
  · decide

/-- C7 (amended): a resolution failure that precedes every API lookup — a
non-YouTube domain, a malformed path, or a failed 24-character fallback —
aborts with the quota counter unchanged; a handle, custom-name or username
lookup that succeeds at the API level but finds no channel aborts only after
that lookup's cost has been tracked: 100 units for the search.list lookups
(handle and custom name), 1 unit for the channels.list username lookup. -/
theorem resolution_failure_quota (netloc path : String)
    (search channelsForUsername : String → Except PyErr (List String)) (q0 : Nat) :
    quotaCost "search.list" = 100
    ∧ quotaCost "channels.list" = 1
    ∧ (netloc ∉ youtubeNetlocs →
        get_channel_id_from_url netloc path search channelsForUsername q0
          = (.error (.valueError ("Invalid YouTube URL: " ++ netloc ++ path)), q0))
    ∧ (netloc ∈ youtubeNetlocs →
        ¬((pySplitSegments path).getD 0 "" = "channel"
            ∧ 2 ≤ (pySplitSegments path).length) →
        pyStartsWith ((pySplitSegments path).getD 0 "") "@" = false →
        ¬((pySplitSegments path).getD 0 "" = "c"
            ∧ 2 ≤ (pySplitSegments path).length) →
        ¬((pySplitSegments path).getD 0 "" = "user"
            ∧ 2 ≤ (pySplitSegments path).length) →
        ((pySplitSegments path).getLast?.getD "").length ≠ 24 →
        ∃ m, get_channel_id_from_url netloc path search channelsForUsername q0
          = (.error (.valueError m), q0))
    ∧ (netloc ∈ youtubeNetlocs →
        pyStartsWith ((pySplitSegments path).getD 0 "") "@" = true →
        search ("@" ++ pyDrop ((pySplitSegments path).getD 0 "") 1) = .ok [] →
        get_channel_id_from_url netloc path search channelsForUsername q0
          = (.error (.valueError ("Channel not found for handle: @"
                ++ pyDrop ((pySplitSegments path).getD 0 "") 1)),
             q0 + quotaCost "search.list"))
    ∧ (netloc ∈ youtubeNetlocs →
        (pySplitSegments path).getD 0 "" = "c" → 2 ≤ (pySplitSegments path).length →
        search ((pySplitSegments path).getD 1 "") = .ok [] →
        get_channel_id_from_url netloc path search channelsForUsername q0
          = (.error (.valueError ("Channel not found for custom name: "
                ++ (pySplitSegments path).getD 1 "")),
             q0 + quotaCost "search.list"))
    ∧ (netloc ∈ youtubeNetlocs →
        (pySplitSegments path).getD 0 "" = "user" → 2 ≤ (pySplitSegments path).length →
        channelsForUsername ((pySplitSegments path).getD 1 "") = .ok [] →
        get_channel_id_from_url netloc path search channelsForUsername q0
          = (.error (.valueError ("Channel not found for username: "
                ++ (pySplitSegments path).getD 1 "")),
             q0 + quotaCost "channels.list")) := by
  refine ⟨rfl, rfl, ?_, ?_, ?_, ?_, ?_⟩
  · intro hn
    simp only [get_channel_id_from_url, getChannelIdTry]
    rw [if_pos hn]
  · intro hn h1 h2 h3 h4 h24
    simp only [get_channel_id_from_url, getChannelIdTry]
    rw [if_neg (not_not_intro hn)]
    by_cases hl : (pySplitSegments path).length < 1
    · rw [if_pos hl]
      exact ⟨_, rfl⟩
    · rw [if_neg hl, if_neg h1, if_neg (by rw [h2]; exact Bool.false_ne_true), if_neg h3,
        if_neg h4, if_neg (by rintro ⟨-, hx⟩; exact h24 hx)]
      exact ⟨_, rfl⟩
  · intro hn hat hsearch
    have hch : ¬((pySplitSegments path).getD 0 "" = "channel"
        ∧ 2 ≤ (pySplitSegments path).length) := by
      rintro ⟨he, -⟩
      rw [he] at hat
      exact absurd hat (by decide)
    have hlen : ¬ (pySplitSegments path).length < 1 := by
      intro hl
      have hz : pySplitSegments path = [] := List.length_eq_zero.mp (by omega)
      rw [hz] at hat
      exact absurd hat (by decide)
    simp only [get_channel_id_from_url, getChannelIdTry]
    rw [if_neg (not_not_intro hn), if_neg hlen, if_neg hch, if_pos hat, hsearch]
    rfl
  · intro hn hc hlen2 hsearch
    have hch : ¬((pySplitSegments path).getD 0 "" = "channel"
        ∧ 2 ≤ (pySplitSegments path).length) := by
      rintro ⟨he, -⟩
      exact absurd (hc.symm.trans he) (by decide)
    have hat : pyStartsWith ((pySplitSegments path).getD 0 "") "@" = false := by
      rw [hc]
      decide
    have hlen : ¬ (pySplitSegments path).length < 1 := by omega
    simp only [get_channel_id_from_url, getChannelIdTry]
    rw [if_neg (not_not_intro hn), if_neg hlen, if_neg hch,
      if_neg (by rw [hat]; exact Bool.false_ne_true), if_pos ⟨hc, hlen2⟩, hsearch]
    rfl
  · intro hn hu hlen2 hchan
    have hch : ¬((pySplitSegments path).getD 0 "" = "channel"
        ∧ 2 ≤ (pySplitSegments path).length) := by
      rintro ⟨he, -⟩
      exact absurd (hu.symm.trans he) (by decide)
    have hat : pyStartsWith ((pySplitSegments path).getD 0 "") "@" = false := by
      rw [hu]
      decide
    have hcc : ¬((pySplitSegments path).getD 0 "" = "c"
        ∧ 2 ≤ (pySplitSegments path).length) := by
      rintro ⟨he, -⟩
      exact absurd (hu.symm.trans he) (by decide)
    have hlen : ¬ (pySplitSegments path).length < 1 := by omega
    simp only [get_channel_id_from_url, getChannelIdTry]
    rw [if_neg (not_not_intro hn), if_neg hlen, if_neg hch,
      if_neg (by rw [hat]; exact Bool.false_ne_true), if_neg hcc, if_pos ⟨hu, hlen2⟩, hchan]
    rfl

/-- Witness for C7's amended claim: each failure kind at a concrete input —
zero cost for the pre-lookup failures, the lookup's cost (100 or 1 units)
for the no-channel-found lookups. -/
theorem resolution_failure_quota_witness :
    get_channel_id_from_url "example.com" "" emptySearch emptySearch 7
      = (.error (.valueError "Invalid YouTube URL: example.com"), 7)
    ∧ (∃ m, get_channel_id_from_url "www.youtube.com" "/foo/bar" emptySearch emptySearch 5
        = (.error (.valueError m), 5))
    ∧ get_channel_id_from_url "www.youtube.com" "/@nobody" emptySearch emptySearch 3
        = (.error (.valueError "Channel not found for handle: @nobody"), 103)
    ∧ get_channel_id_from_url "www.youtube.com" "/c/mychannel" emptySearch emptySearch 0
        = (.error (.valueError "Channel not found for custom name: mychannel"), 100)
    ∧ get_channel_id_from_url "www.youtube.com" "/user/bob" emptySearch emptySearch 10
        = (.error (.valueError "Channel not found for username: bob"), 11) := by
  refine ⟨?_, ?_, ?_, ?_, ?_⟩
  · exact (resolution_failure_quota "example.com" "" emptySearch emptySearch 7).2.2.1
      (by decide)
  · exact (resolution_failure_quota "www.youtube.com" "/foo/bar" emptySearch
      emptySearch 5).2.2.2.1 (by decide) (by decide) (by decide) (by decide) (by decide)
      (by decide)
  · exact (resolution_failure_quota "www.youtube.com" "/@nobody" emptySearch
      emptySearch 3).2.2.2.2.1 (by decide) (by decide) rfl
  · exact (resolution_failure_quota "www.youtube.com" "/c/mychannel" emptySearch
      emptySearch 0).2.2.2.2.2.1 (by decide) (by decide) (by decide) rfl
  · exact (resolution_failure_quota "www.youtube.com" "/user/bob" emptySearch
      emptySearch 10).2.2.2.2.2.2 (by decide) (by decide) (by decide) rfl

/-! ### C5: quota accounting -/

/-- The operations a run feeds to track_quota, as a function of its result:
the supplied operation type exactly on normal return, nothing otherwise. -/
def trackedFor (op : Option String) : RetryResult α → List String
  | .ok _ => op.toList
  | _ => []

theorem isOkRun_result (r : RetryRun α) :
    r.isOkRun = match r.result with | .ok _ => true | _ => false := rfl

/-- api_call_with_retry feeds track_quota exactly when it returns normally,
and then exactly the supplied operation type. -/
theorem apiRetryGo_tracked (f : Nat → ApiAttempt α) (op : Option String)
    (jit : Nat → ℚ) (m : Nat) :
    ∀ fuel attempt, (apiRetryGo f op jit m attempt fuel).tracked
      = trackedFor op (apiRetryGo f op jit m attempt fuel).result := by
  intro fuel
  induction fuel with
  | zero => intro attempt; rfl
  | succ n ih =>
    intro attempt
    unfold apiRetryGo
    by_cases h : attempt < m
    · rw [if_pos h]
      cases hf : f attempt with
      | ok a => rfl
      | httpErr s r =>
        dsimp only
        by_cases hr : s = 429 ∨ s = 503
        · rw [if_pos hr]
          by_cases h2 : attempt < m - 1
          · rw [if_pos h2]
            exact ih (attempt + 1)
          · rw [if_neg h2]; rfl
        · rw [if_neg hr]; rfl
      | exc msg => rfl
    · rw [if_neg h]; rfl

/-- The tracked operations of one whole gateway call. -/
theorem gatewayRun_tracked (c : GatewayCall α) :
    (gatewayRun c).tracked = trackedFor c.operationType (gatewayRun c).result :=
  apiRetryGo_tracked c.apiFunc c.operationType c.jitter c.maxRetries c.maxRetries 0

/-- Folding track_quota over a list of operations adds the sum of their costs. -/
theorem foldl_track_quota (l : List String) (q : Nat) :
    l.foldl (fun q' t => track_quota t q') q = q + (l.map quotaCost).sum := by
  induction l generalizing q with
  | nil => simp
  | cons t ts ih =>
    simp only [List.foldl_cons, List.map_cons, List.sum_cons]
    rw [ih (track_quota t q)]
    unfold track_quota
    omega

/-- The quota counter after a trace of gateway calls is the initial value plus
the per-call deltas. -/
theorem runCalls_eq (calls : List (GatewayCall α)) (q0 : Nat) :
    runCalls calls q0 = q0 + (calls.map callDelta).sum := by
  induction calls generalizing q0 with
  | nil => simp [runCalls]
  | cons c cs ih =>
    have hstep : (gatewayRun c).tracked.foldl (fun q' t => track_quota t q') q0
        = q0 + callDelta c := foldl_track_quota _ q0
    simp only [runCalls, List.foldl_cons] at *
    rw [hstep, ih (q0 + callDelta c)]
    simp [Nat.add_assoc]

/-- The delta of one call splits into the contribution of the operation kind
under scrutiny and the contribution of any other kind. -/
theorem callDelta_split (op : String) (c : GatewayCall α) :
    callDelta c
      = (if (c.operationType == some op && (gatewayRun c).isOkRun) then quotaCost op else 0)
        + otherCost op c := by
  unfold callDelta otherCost
  rw [gatewayRun_tracked, isOkRun_result]
  cases hres : (gatewayRun c).result with
  | ok a =>
    cases ho : c.operationType with
    | none => simp [trackedFor]
    | some t =>
      by_cases ht : t = op
      · subst ht; simp [trackedFor]
      · simp [trackedFor, ht, Ne.symm ht]
  | raised e =>
    cases ho : c.operationType <;> simp [trackedFor]
  | implicitNone =>
    cases ho : c.operationType <;> simp [trackedFor]

/-- Summing an indicator map counts the filtered elements. -/
theorem sum_if_count (p : GatewayCall α → Bool) (k : Nat) (l : List (GatewayCall α)) :
    (l.map (fun c => if p c then k else 0)).sum = (l.filter p).length * k := by
  induction l with
  | nil => simp
  | cons c cs ih =>
    by_cases h : p c
    · simp [h, ih, List.filter_cons, Nat.succ_mul]; omega
    · simp [h, ih, List.filter_cons]

/-- C5: after K successful gateway calls of a given operation kind the quota
counter has grown by exactly K times that kind's fixed cost plus the
contributions of the other kinds (so the part attributable to the kind is
K times its cost regardless of interleaving); the counter never decreases;
and each call increments it exactly once when it succeeds with an operation
type and zero times otherwise. -/
theorem quota_accounting (α : Type) (calls : List (GatewayCall α)) (q0 : Nat)
    (operationType : String) :
    runCalls calls q0
        = q0 + succCount operationType calls * quotaCost operationType
            + othersCost operationType calls
    ∧ q0 ≤ runCalls calls q0
    ∧ ∀ c : GatewayCall α, (gatewayRun c).tracked.length
        = if ((gatewayRun c).isOkRun && c.operationType.isSome) = true then 1 else 0 := by
  refine ⟨?_, ?_, ?_⟩
  · rw [runCalls_eq]
    have hsplit : (calls.map callDelta).sum
        = succCount operationType calls * quotaCost operationType
          + othersCost operationType calls := by
      unfold succCount othersCost
      induction calls with
      | nil => simp
      | cons c cs ih =>
        rw [List.map_cons, List.sum_cons, callDelta_split operationType c]
        rw [List.map_cons, List.sum_cons, List.filter_cons]
        by_cases h : (c.operationType == some operationType && (gatewayRun c).isOkRun) = true
        · rw [if_pos h, if_pos h, List.length_cons, ih, Nat.succ_mul]
          omega
        · rw [if_neg h, if_neg h, ih]
          omega
    omega
  · rw [runCalls_eq]; omega
  · intro c
    rw [gatewayRun_tracked, isOkRun_result]
    cases hres : (gatewayRun c).result <;> cases ho : c.operationType <;> simp [trackedFor]

/-! ### C6: backoff growth and retry policy -/

/-- The sleeps of a retry run are exactly 2^i + jitter i for the consecutive
attempt indices starting at the current one. -/
theorem apiRetryGo_sleeps_shape (f : Nat → ApiAttempt α) (op : Option String)
    (jit : Nat → ℚ) (m : Nat) :
    ∀ fuel attempt, ∃ k, (apiRetryGo f op jit m attempt fuel).sleeps
      = (List.range k).map (fun i => (2 : ℚ) ^ (attempt + i) + jit (attempt + i)) := by
  intro fuel
  induction fuel with
  | zero => intro attempt; exact ⟨0, by simp [apiRetryGo]⟩
  | succ n ih =>
    intro attempt
    unfold apiRetryGo
    by_cases h : attempt < m
    · rw [if_pos h]
      cases hf : f attempt with
      | ok a => exact ⟨0, by simp⟩
      | httpErr s r =>
        dsimp only
        by_cases hr : s = 429 ∨ s = 503
        · rw [if_pos hr]
          by_cases h2 : attempt < m - 1
          · rw [if_pos h2]
            obtain ⟨k, hk⟩ := ih (attempt + 1)
            refine ⟨k + 1, ?_⟩
            dsimp only
            rw [hk, List.range_succ_eq_map]
            simp only [List.map_cons, List.map_map]
            congr 1
            apply List.map_congr_left
            intro i hi
            have harith : attempt + 1 + i = attempt + (i + 1) := by omega
            rw [harith]
            rfl
          · rw [if_neg h2]; exact ⟨0, by simp⟩
        · rw [if_neg hr]; exact ⟨0, by simp⟩
      | exc msg => exact ⟨0, by simp⟩
    · rw [if_neg h]; exact ⟨0, by simp⟩

/-- A retry run sleeps at most maxRetries - 1 - attempt times. -/
theorem apiRetryGo_sleeps_len (f : Nat → ApiAttempt α) (op : Option String)
    (jit : Nat → ℚ) (m : Nat) :
    ∀ fuel attempt, (apiRetryGo f op jit m attempt fuel).sleeps.length ≤ m - 1 - attempt := by
  intro fuel
  induction fuel with
  | zero => intro attempt; simp [apiRetryGo]
  | succ n ih =>
    intro attempt
    unfold apiRetryGo
    by_cases h : attempt < m
    · rw [if_pos h]
      cases hf : f attempt with
      | ok a => simp
      | httpErr s r =>
        dsimp only
        by_cases hr : s = 429 ∨ s = 503
        · rw [if_pos hr]
          by_cases h2 : attempt < m - 1
          · rw [if_pos h2]
            have := ih (attempt + 1)
            dsimp only [List.length_cons]
            omega
          · rw [if_neg h2]; simp
        · rw [if_neg hr]; simp
      | exc msg => simp
    · rw [if_neg h]; simp

/-- When every attempt up to the ceiling fails retryably, the run performs all
maxRetries attempts, sleeps after each but the last, and propagates the final
failure. -/
theorem apiRetryGo_all_retryable (f : Nat → ApiAttempt α) (op : Option String)
    (jit : Nat → ℚ) (m : Nat) :
    ∀ fuel attempt, attempt + fuel = m → attempt < m →
    (∀ i, attempt ≤ i → i < m → (f i).retryable = true) →
    (apiRetryGo f op jit m attempt fuel).result = (f (m - 1)).escalate
    ∧ (apiRetryGo f op jit m attempt fuel).sleeps.length = m - 1 - attempt := by
  intro fuel
  induction fuel with
  | zero => intro attempt hfm hm; omega
  | succ n ih =>
    intro attempt hfm hm hall
    have hretry := hall attempt le_rfl hm
    unfold apiRetryGo
    rw [if_pos hm]
    cases hf : f attempt with
    | ok a => rw [hf] at hretry; simp [ApiAttempt.retryable] at hretry
    | exc msg => rw [hf] at hretry; simp [ApiAttempt.retryable] at hretry
    | httpErr s r =>
      rw [hf] at hretry
      have hsr : s = 429 ∨ s = 503 := by
        simpa [ApiAttempt.retryable] using hretry
      dsimp only
      rw [if_pos hsr]
      by_cases h2 : attempt < m - 1
      · rw [if_pos h2]
        obtain ⟨hres, hlen⟩ := ih (attempt + 1) (by omega) (by omega)
          (fun i hi him => hall i (by omega) him)
        refine ⟨hres, ?_⟩
        dsimp only [List.length_cons]
        omega
      · rw [if_neg h2]
        have hlast : attempt = m - 1 := by omega
        constructor
        · rw [← hlast, hf]; rfl
        · simp; omega

/-- A non-retryable failure at attempt j (after j retryable failures)
propagates immediately: the run raises that failure and performs exactly the
j sleeps of the earlier retryable attempts, none for attempt j itself. -/
theorem apiRetryGo_nonretryable (f : Nat → ApiAttempt α) (op : Option String)
    (jit : Nat → ℚ) (m : Nat) :
    ∀ fuel attempt j, attempt + fuel = m → attempt ≤ j → j < m →
    (∀ i, attempt ≤ i → i < j → (f i).retryable = true) →
    (f j).failed = true → (f j).retryable = false →
    (apiRetryGo f op jit m attempt fuel).result = (f j).escalate
    ∧ (apiRetryGo f op jit m attempt fuel).sleeps.length = j - attempt := by
  intro fuel
  induction fuel with
  | zero => intro attempt j hfm haj hjm; omega
  | succ n ih =>
    intro attempt j hfm haj hjm hall hfail hnr
    have hm : attempt < m := by omega
    unfold apiRetryGo
    rw [if_pos hm]
    rcases Nat.eq_or_lt_of_le haj with heq | hlt
    · subst heq
      cases hf : f attempt with
      | ok a => rw [hf] at hfail; simp [ApiAttempt.failed] at hfail
      | exc msg =>
        exact ⟨rfl, by simp⟩
      | httpErr s r =>
        rw [hf] at hnr
        have hsr : ¬ (s = 429 ∨ s = 503) := by
          simpa [ApiAttempt.retryable] using hnr
        dsimp only
        rw [if_neg hsr]
        exact ⟨rfl, by simp⟩
    · have hretry := hall attempt le_rfl hlt
      cases hf : f attempt with
      | ok a => rw [hf] at hretry; simp [ApiAttempt.retryable] at hretry
      | exc msg => rw [hf] at hretry; simp [ApiAttempt.retryable] at hretry
      | httpErr s r =>
        rw [hf] at hretry
        have hsr : s = 429 ∨ s = 503 := by
          simpa [ApiAttempt.retryable] using hretry
        dsimp only
        rw [if_pos hsr, if_pos (show attempt < m - 1 by omega)]
        obtain ⟨hres, hlen⟩ := ih (attempt + 1) j (by omega) (by omega) hjm
          (fun i hi hij => hall i (by omega) hij) hfail hnr
        refine ⟨hres, ?_⟩
        dsimp only [List.length_cons]
        omega

/-- C6: over a run of api_call_with_retry with jitter drawn from [0, 1):
every performed backoff sleep for retry attempt i lies in [2^i, 2^i + 1);
at most maxRetries - 1 sleeps are performed; if every attempt fails
retryably the final attempt's failure is propagated after maxRetries - 1
backoffs; and a non-retryable failure is propagated immediately, with no
sleep for the attempt on which it occurred. -/
theorem backoff_and_retry_policy (α : Type) (f : Nat → ApiAttempt α)
    (op : Option String) (jit : Nat → ℚ) (m : Nat)
    (hj : ∀ n, 0 ≤ jit n ∧ jit n < 1) :
    (∀ i (h : i < (api_call_with_retry f op jit m).sleeps.length),
        (2 : ℚ) ^ i ≤ (api_call_with_retry f op jit m).sleeps.get ⟨i, h⟩
        ∧ (api_call_with_retry f op jit m).sleeps.get ⟨i, h⟩ < (2 : ℚ) ^ i + 1)
    ∧ (api_call_with_retry f op jit m).sleeps.length ≤ m - 1
    ∧ (0 < m → (∀ i, i < m → (f i).retryable = true) →
        (api_call_with_retry f op jit m).result = (f (m - 1)).escalate
        ∧ (api_call_with_retry f op jit m).sleeps.length = m - 1)
    ∧ (∀ j, j < m → (∀ i, i < j → (f i).retryable = true) →
        (f j).failed = true → (f j).retryable = false →
        (api_call_with_retry f op jit m).result = (f j).escalate
        ∧ (api_call_with_retry f op jit m).sleeps.length = j) := by
  refine ⟨?_, ?_, ?_, ?_⟩
  · intro i h
    obtain ⟨k, hk⟩ := apiRetryGo_sleeps_shape f op jit m m 0
    have hval : (api_call_with_retry f op jit m).sleeps.get ⟨i, h⟩
        = (2 : ℚ) ^ i + jit i := by
      have heq : (api_call_with_retry f op jit m).sleeps
          = (List.range k).map (fun i => (2 : ℚ) ^ (0 + i) + jit (0 + i)) := hk
      rw [List.get_of_eq heq ⟨i, h⟩]
      simp
    rw [hval]
    constructor
    · linarith [(hj i).1]
    · linarith [(hj i).2]
  · have := apiRetryGo_sleeps_len f op jit m m 0
    simpa [api_call_with_retry] using this
  · intro hm hall
    have := apiRetryGo_all_retryable f op jit m m 0 (by omega) hm
      (fun i _ him => hall i him)
    simpa [api_call_with_retry] using this
  · intro j hjm hall hfail hnr
    have := apiRetryGo_nonretryable f op jit m m 0 j (by omega) (Nat.zero_le j) hjm
      (fun i _ hij => hall i hij) hfail hnr
    simpa [api_call_with_retry] using this

/-- Witness for C6 at concrete inputs: a permanently 503-failing api_func with
jitter 1/2 and the default ceiling of three attempts. -/
theorem backoff_and_retry_policy_witness :
    (∀ i (h : i < (api_call_with_retry (fun _ => ApiAttempt.httpErr (α := Nat) 503 none)
          (some "comments.list") (fun _ => (1 : ℚ) / 2) 3).sleeps.length),
        (2 : ℚ) ^ i ≤ (api_call_with_retry (fun _ => ApiAttempt.httpErr (α := Nat) 503 none)
          (some "comments.list") (fun _ => (1 : ℚ) / 2) 3).sleeps.get ⟨i, h⟩
        ∧ (api_call_with_retry (fun _ => ApiAttempt.httpErr (α := Nat) 503 none)
          (some "comments.list") (fun _ => (1 : ℚ) / 2) 3).sleeps.get ⟨i, h⟩
            < (2 : ℚ) ^ i + 1)
    ∧ (api_call_with_retry (fun _ => ApiAttempt.httpErr (α := Nat) 503 none)
          (some "comments.list") (fun _ => (1 : ℚ) / 2) 3).sleeps.length ≤ 3 - 1
    ∧ (0 < 3 → (∀ i, i < 3 →
          (ApiAttempt.httpErr (α := Nat) 503 none).retryable = true) →
        (api_call_with_retry (fun _ => ApiAttempt.httpErr (α := Nat) 503 none)
          (some "comments.list") (fun _ => (1 : ℚ) / 2) 3).result
            = (ApiAttempt.httpErr (α := Nat) 503 none).escalate
        ∧ (api_call_with_retry (fun _ => ApiAttempt.httpErr (α := Nat) 503 none)
          (some "comments.list") (fun _ => (1 : ℚ) / 2) 3).sleeps.length = 3 - 1)
    ∧ (∀ j, j < 3 → (∀ i, i < j →
          (ApiAttempt.httpErr (α := Nat) 503 none).retryable = true) →
        (ApiAttempt.httpErr (α := Nat) 503 none).failed = true →
        (ApiAttempt.httpErr (α := Nat) 503 none).retryable = false →
        (api_call_with_retry (fun _ => ApiAttempt.httpErr (α := Nat) 503 none)
          (some "comments.list") (fun _ => (1 : ℚ) / 2) 3).result
            = (ApiAttempt.httpErr (α := Nat) 503 none).escalate
        ∧ (api_call_with_retry (fun _ => ApiAttempt.httpErr (α := Nat) 503 none)
          (some "comments.list") (fun _ => (1 : ℚ) / 2) 3).sleeps.length = j) :=
  backoff_and_retry_policy Nat (fun _ => ApiAttempt.httpErr 503 none)
    (some "comments.list") (fun _ => (1 : ℚ) / 2) 3
    (fun n => ⟨by norm_num, by norm_num⟩)

/-! ### C1: the quota-stop scenario -/

/-- C1: for a worklist [V1, V2, V3] starting from empty state, where V1's
comment fetch yields two threads without replies and V2's comment fetch
raises an HttpError whose reason is quotaExceeded: the loop attempts V1 and
V2 only (V3 is never fetched), the persisted comments file holds exactly
V1's two comments, the persisted sub-comments file is empty, and the run
takes the graceful-stop branch (the one that prints the stop message with
the quota usage and breaks). -/
theorem quota_stop_scenario (cApi : String → FetchOutcome (List RawThread))
    (rApi : String → FetchOutcome (List RawReply)) (v1 v2 v3 : Video)
    (i1 i2 : RawThread) (s : Nat)
    (h1 : cApi v1.id = .ok [i1, i2])
    (hr1 : i1.totalReplyCount = 0) (hr2 : i2.totalReplyCount = 0)
    (h2 : cApi v2.id = .httpError s (some "quotaExceeded")) :
    (mainLoop cApi rApi [v1, v2, v3] (initialLoopState [] [])).commentsFile
        = [{ comment := i1.textDisplay, videoTitle := v1.title,
             videoLink := create_video_link v1.id,
             datePostComment := i1.publishedAt, likesCount := i1.likeCount },
           { comment := i2.textDisplay, videoTitle := v1.title,
             videoLink := create_video_link v1.id,
             datePostComment := i2.publishedAt, likesCount := i2.likeCount }]
    ∧ (mainLoop cApi rApi [v1, v2, v3] (initialLoopState [] [])).commentsFile.length = 2
    ∧ (mainLoop cApi rApi [v1, v2, v3] (initialLoopState [] [])).subCommentsFile = []
    ∧ (mainLoop cApi rApi [v1, v2, v3] (initialLoopState [] [])).masterComments
        = (mainLoop cApi rApi [v1, v2, v3] (initialLoopState [] [])).commentsFile
    ∧ (mainLoop cApi rApi [v1, v2, v3] (initialLoopState [] [])).attemptedVideos
        = [v1.id, v2.id]
    ∧ (mainLoop cApi rApi [v1, v2, v3] (initialLoopState [] [])).stoppedByQuota = true := by
  have hstep : mainLoop cApi rApi [v1, v2, v3] (initialLoopState [] [])
      = (processVideo cApi rApi v2 (processVideo cApi rApi v1 (initialLoopState [] [])).1).1 := by
    rw [mainLoop]
    rw [show (processVideo cApi rApi v1 (initialLoopState [] [])).2 = true by
      simp [processVideo, h1]]
    rw [if_pos rfl]
    rw [mainLoop]
    rw [show (processVideo cApi rApi v2
        (processVideo cApi rApi v1 (initialLoopState [] [])).1).2 = false by
      simp [processVideo, h2]]
    rw [if_neg (by simp)]
  rw [hstep]
  simp [processVideo, h1, h2, fetch_video_comments, initialLoopState, hr1, hr2,
    List.filter_cons]

/-- Witness for C1 at concrete inputs. -/
theorem quota_stop_scenario_witness :
    (mainLoop cApiScenario rApiEmpty
        [⟨"a", "A"⟩, ⟨"b", "B"⟩, ⟨"c", "C"⟩] (initialLoopState [] [])).commentsFile
        = [{ comment := "t1", videoTitle := "A",
             videoLink := create_video_link "a",
             datePostComment := "d1", likesCount := 1 },
           { comment := "t2", videoTitle := "A",
             videoLink := create_video_link "a",
             datePostComment := "d2", likesCount := 2 }]
    ∧ (mainLoop cApiScenario rApiEmpty
        [⟨"a", "A"⟩, ⟨"b", "B"⟩, ⟨"c", "C"⟩] (initialLoopState [] [])).commentsFile.length = 2
    ∧ (mainLoop cApiScenario rApiEmpty
        [⟨"a", "A"⟩, ⟨"b", "B"⟩, ⟨"c", "C"⟩] (initialLoopState [] [])).subCommentsFile = []
    ∧ (mainLoop cApiScenario rApiEmpty
        [⟨"a", "A"⟩, ⟨"b", "B"⟩, ⟨"c", "C"⟩] (initialLoopState [] [])).masterComments
        = (mainLoop cApiScenario rApiEmpty
            [⟨"a", "A"⟩, ⟨"b", "B"⟩, ⟨"c", "C"⟩] (initialLoopState [] [])).commentsFile
    ∧ (mainLoop cApiScenario rApiEmpty
        [⟨"a", "A"⟩, ⟨"b", "B"⟩, ⟨"c", "C"⟩] (initialLoopState [] [])).attemptedVideos
        = ["a", "b"]
    ∧ (mainLoop cApiScenario rApiEmpty
        [⟨"a", "A"⟩, ⟨"b", "B"⟩, ⟨"c", "C"⟩] (initialLoopState [] [])).stoppedByQuota = true :=
  quota_stop_scenario cApiScenario rApiEmpty ⟨"a", "A"⟩ ⟨"b", "B"⟩ ⟨"c", "C"⟩
    { textDisplay := "t1", publishedAt := "d1", likeCount := 1,
      totalReplyCount := 0, topCommentId := "p1" }
    { textDisplay := "t2", publishedAt := "d2", likeCount := 2,
      totalReplyCount := 0, topCommentId := "p2" }
    403 rfl rfl rfl rfl

/-! ### C2: the reply-fetch quota error is swallowed by the per-reply handler -/

/-- C2 (behaviour at the failing input): fetch_comment_replies does re-raise a
quotaExceeded HttpError, but the per-reply except Exception of main.py:917
catches it: with one thread of video v1 expecting two replies and a reply
oracle that fails with quotaExceeded, the loop does not stop (the quota
branch of the outer handler is never taken), the next video v2 is still
attempted, and the quota failure is recorded as a failed reply fetch while
both videos are flushed. -/
theorem reply_quota_error_swallowed :
    fetch_comment_replies (rApiQuota "p1") "p1" "T1" "v1"
        = .error (.httpError 403 (some "quotaExceeded"))
    ∧ (mainLoop cApiReplyQuota rApiQuota [⟨"v1", "T1"⟩, ⟨"v2", "T2"⟩]
        (initialLoopState [] [])).stoppedByQuota = false
    ∧ (mainLoop cApiReplyQuota rApiQuota [⟨"v1", "T1"⟩, ⟨"v2", "T2"⟩]
        (initialLoopState [] [])).attemptedVideos = ["v1", "v2"]
    ∧ (mainLoop cApiReplyQuota rApiQuota [⟨"v1", "T1"⟩, ⟨"v2", "T2"⟩]
        (initialLoopState [] [])).failedReplyFetches
        = [{ parent_comment_id := "p1", video_id := "v1", video_title := "T1",
             video_link := create_video_link "v1", expected_count := 2,
             fetched_count := 0, missing_count := 2,
             err := some (.httpError 403 (some "quotaExceeded")) }]
    ∧ (mainLoop cApiReplyQuota rApiQuota [⟨"v1", "T1"⟩, ⟨"v2", "T2"⟩]
        (initialLoopState [] [])).commentsFile.length = 1 := by
  refine ⟨rfl, ?_, ?_, ?_, ?_⟩ <;> decide

/-! ### C8: discrepancy detection -/

/-- C8: for a video whose comment fetch succeeds, the per-thread loop appends
to failed_reply_fetches exactly the discrepancy records of its reply
pointers: one record per pointer whose fetch returns a count different from
the expected count (with expectedCount, fetchedCount and
missingCount = expected - fetched as recorded fields, no error attached) and
one per pointer whose fetch raised (fetchedCount 0, missingCount = expected,
the error attached); pointers whose count matches produce nothing.  The
video itself is not failed: the loop continues and the video's comments are
merged and flushed. -/
theorem discrepancy_detection (cApi : String → FetchOutcome (List RawThread))
    (rApi : String → FetchOutcome (List RawReply)) (v : Video) (st : LoopState)
    (items : List RawThread) (h : cApi v.id = .ok items) :
    (processVideo cApi rApi v st).1.failedReplyFetches
        = st.failedReplyFetches
          ++ (fetch_video_comments v.title (create_video_link v.id) items).2.filterMap
              (discrepancyOf rApi v (create_video_link v.id))
    ∧ (processVideo cApi rApi v st).2 = true
    ∧ (processVideo cApi rApi v st).1.masterComments
        = st.masterComments
          ++ (fetch_video_comments v.title (create_video_link v.id) items).1
    ∧ (processVideo cApi rApi v st).1.commentsFile
        = (processVideo cApi rApi v st).1.masterComments
    ∧ (∀ p E replies, fetch_comment_replies (rApi p) p v.title v.id = .ok replies →
        replies.length ≠ E →
        discrepancyOf rApi v (create_video_link v.id) (p, E)
          = some { parent_comment_id := p, video_id := v.id, video_title := v.title,
                   video_link := create_video_link v.id, expected_count := E,
                   fetched_count := replies.length,
                   missing_count := (E : Int) - (replies.length : Int), err := none })
    ∧ (∀ p E e, fetch_comment_replies (rApi p) p v.title v.id = .error e →
        discrepancyOf rApi v (create_video_link v.id) (p, E)
          = some { parent_comment_id := p, video_id := v.id, video_title := v.title,
                   video_link := create_video_link v.id, expected_count := E,
                   fetched_count := 0, missing_count := (E : Int),
                   err := some e }) := by
  have hfold : ∀ (ts : List (String × Nat)) (a : List SubComment)
      (b : List FailedReplyFetch),
      (ts.foldl (replyStep rApi v (create_video_link v.id)) (a, b)).2
        = b ++ ts.filterMap (discrepancyOf rApi v (create_video_link v.id)) := by
    intro ts
    induction ts with
    | nil => intro a b; simp
    | cons p ts ih =>
      intro a b
      rw [List.foldl_cons, List.filterMap_cons]
      cases hr : fetch_comment_replies (rApi p.1) p.1 v.title v.id with
      | ok replies =>
        simp only [replyStep, discrepancyOf, hr]
        by_cases hne : replies.length ≠ p.2
        · rw [if_pos hne, if_pos hne]
          rw [ih]
          simp
        · rw [if_neg hne, if_neg hne]
          rw [ih]
      | error e =>
        simp only [replyStep, discrepancyOf, hr]
        rw [ih]
        simp
  refine ⟨?_, ?_, ?_, ?_, ?_, ?_⟩
  · simp only [processVideo, h]
    rw [hfold]
    simp
  · simp [processVideo, h]
  · simp [processVideo, h]
  · simp [processVideo, h]
  · intro p E replies hr hne
    simp only [discrepancyOf, hr]
    rw [if_pos hne]
  · intro p E e hr
    simp only [discrepancyOf, hr]

/-- Witness for C8: expected 5 replies, fetched 3, exactly one record with
missingCount 2, and the loop continues. -/
theorem discrepancy_detection_witness :
    (processVideo cApiFiveExpected rApiThree ⟨"v", "T"⟩
        (initialLoopState [] [])).1.failedReplyFetches
      = [{ parent_comment_id := "p", video_id := "v", video_title := "T",
           video_link := create_video_link "v", expected_count := 5,
           fetched_count := 3, missing_count := 2, err := none }]
    ∧ (processVideo cApiFiveExpected rApiThree ⟨"v", "T"⟩ (initialLoopState [] [])).2
        = true := by
  have h := discrepancy_detection cApiFiveExpected rApiThree ⟨"v", "T"⟩
    (initialLoopState [] []) _ rfl
  refine ⟨?_, h.2.1⟩
  rw [h.1]
  decide

/-! ### C3: resuming with no new upstream data -/

/-- The successful branch of the per-video step, as a record equation. -/
theorem processVideo_ok (cApi : String → FetchOutcome (List RawThread))
    (rApi : String → FetchOutcome (List RawReply)) (v : Video) (st : LoopState)
    (items : List RawThread) (h : cApi v.id = .ok items) :
    processVideo cApi rApi v st
      = ({ st with
            masterComments := st.masterComments
              ++ (fetch_video_comments v.title (create_video_link v.id) items).1,
            masterSubComments := st.masterSubComments
              ++ ((fetch_video_comments v.title (create_video_link v.id) items).2.foldl
                    (replyStep rApi v (create_video_link v.id)) ([], [])).1,
            commentsFile := st.masterComments
              ++ (fetch_video_comments v.title (create_video_link v.id) items).1,
            subCommentsFile := st.masterSubComments
              ++ ((fetch_video_comments v.title (create_video_link v.id) items).2.foldl
                    (replyStep rApi v (create_video_link v.id)) ([], [])).1,
            failedReplyFetches := st.failedReplyFetches
              ++ ((fetch_video_comments v.title (create_video_link v.id) items).2.foldl
                    (replyStep rApi v (create_video_link v.id)) ([], [])).2,
            attemptedVideos := st.attemptedVideos ++ [v.id] }, true) := by
  simp only [processVideo, h]

/-- The comments-disabled branch of the per-video step. -/
theorem processVideo_disabled (cApi : String → FetchOutcome (List RawThread))
    (rApi : String → FetchOutcome (List RawReply)) (v : Video) (st : LoopState)
    (s : Nat) (h : cApi v.id = .httpError s (some "commentsDisabled")) :
    processVideo cApi rApi v st
      = ({ st with attemptedVideos := st.attemptedVideos ++ [v.id] }, true) := by
  simp [processVideo, h]

/-- The quota-exceeded branch of the per-video step. -/
theorem processVideo_quota (cApi : String → FetchOutcome (List RawThread))
    (rApi : String → FetchOutcome (List RawReply)) (v : Video) (st : LoopState)
    (s : Nat) (h : cApi v.id = .httpError s (some "quotaExceeded")) :
    processVideo cApi rApi v st
      = ({ st with attemptedVideos := st.attemptedVideos ++ [v.id],
                   stoppedByQuota := true }, false) := by
  simp [processVideo, h]

/-- The branch for any other HttpError: skip the video. -/
theorem processVideo_otherHttp (cApi : String → FetchOutcome (List RawThread))
    (rApi : String → FetchOutcome (List RawReply)) (v : Video) (st : LoopState)
    (s : Nat) (r : Option String) (h : cApi v.id = .httpError s r)
    (hd : r ≠ some "commentsDisabled") (hq : r ≠ some "quotaExceeded") :
    processVideo cApi rApi v st
      = ({ st with attemptedVideos := st.attemptedVideos ++ [v.id] }, true) := by
  simp only [processVideo, h]
  rw [if_neg hd, if_neg hq]

/-- The branch for any other exception: skip the video. -/
theorem processVideo_exc (cApi : String → FetchOutcome (List RawThread))
    (rApi : String → FetchOutcome (List RawReply)) (v : Video) (st : LoopState)
    (m : String) (h : cApi v.id = .exc m) :
    processVideo cApi rApi v st
      = ({ st with attemptedVideos := st.attemptedVideos ++ [v.id] }, true) := by
  simp [processVideo, h]

/-- Unfolding the loop when the step continues. -/
theorem mainLoop_cons_continue (cApi : String → FetchOutcome (List RawThread))
    (rApi : String → FetchOutcome (List RawReply)) (v : Video) (rest : List Video)
    (st : LoopState) (h : (processVideo cApi rApi v st).2 = true) :
    mainLoop cApi rApi (v :: rest) st
      = mainLoop cApi rApi rest (processVideo cApi rApi v st).1 := by
  simp [mainLoop, h]

/-- Unfolding the loop when the step breaks. -/
theorem mainLoop_cons_break (cApi : String → FetchOutcome (List RawThread))
    (rApi : String → FetchOutcome (List RawReply)) (v : Video) (rest : List Video)
    (st : LoopState) (h : (processVideo cApi rApi v st).2 = false) :
    mainLoop cApi rApi (v :: rest) st = (processVideo cApi rApi v st).1 := by
  simp [mainLoop, h]

/-- A step that breaks has set the quota-stop flag. -/
theorem processVideo_break_flag (cApi : String → FetchOutcome (List RawThread))
    (rApi : String → FetchOutcome (List RawReply)) (v : Video) (st : LoopState)
    (h : (processVideo cApi rApi v st).2 = false) :
    (processVideo cApi rApi v st).1.stoppedByQuota = true := by
  cases ho : cApi v.id with
  | ok items => rw [processVideo_ok cApi rApi v st items ho] at h; simp at h
  | httpError s r =>
    by_cases hd : r = some "commentsDisabled"
    · subst hd
      rw [processVideo_disabled cApi rApi v st s ho] at h; simp at h
    · by_cases hq : r = some "quotaExceeded"
      · subst hq
        rw [processVideo_quota cApi rApi v st s ho]
      · rw [processVideo_otherHttp cApi rApi v st s r ho hd hq] at h; simp at h
  | exc m => rw [processVideo_exc cApi rApi v st m ho] at h; simp at h

/-- The per-video step never clears the quota-stop flag. -/
theorem processVideo_flag_mono (cApi : String → FetchOutcome (List RawThread))
    (rApi : String → FetchOutcome (List RawReply)) (v : Video) (st : LoopState)
    (h : st.stoppedByQuota = true) :
    (processVideo cApi rApi v st).1.stoppedByQuota = true := by
  cases ho : cApi v.id with
  | ok items => rw [processVideo_ok cApi rApi v st items ho]; exact h
  | httpError s r =>
    by_cases hd : r = some "commentsDisabled"
    · subst hd; rw [processVideo_disabled cApi rApi v st s ho]; exact h
    · by_cases hq : r = some "quotaExceeded"
      · subst hq; rw [processVideo_quota cApi rApi v st s ho]
      · rw [processVideo_otherHttp cApi rApi v st s r ho hd hq]; exact h
  | exc m => rw [processVideo_exc cApi rApi v st m ho]; exact h

/-- The loop never clears the quota-stop flag. -/
theorem mainLoop_flag_mono (cApi : String → FetchOutcome (List RawThread))
    (rApi : String → FetchOutcome (List RawReply)) (vs : List Video) (st : LoopState)
    (h : st.stoppedByQuota = true) :
    (mainLoop cApi rApi vs st).stoppedByQuota = true := by
  induction vs generalizing st with
  | nil => exact h
  | cons w rest ih =>
    cases hc : (processVideo cApi rApi w st).2 with
    | true =>
      rw [mainLoop_cons_continue cApi rApi w rest st hc]
      exact ih _ (processVideo_flag_mono cApi rApi w st h)
    | false =>
      rw [mainLoop_cons_break cApi rApi w rest st hc]
      exact processVideo_flag_mono cApi rApi w st h

/-- The per-video step only appends to the master comment sequence. -/
theorem processVideo_master (cApi : String → FetchOutcome (List RawThread))
    (rApi : String → FetchOutcome (List RawReply)) (v : Video) (st : LoopState) :
    ∃ d, (processVideo cApi rApi v st).1.masterComments = st.masterComments ++ d := by
  cases ho : cApi v.id with
  | ok items =>
    exact ⟨_, by rw [processVideo_ok cApi rApi v st items ho]⟩
  | httpError s r =>
    by_cases hd : r = some "commentsDisabled"
    · subst hd
      exact ⟨[], by rw [processVideo_disabled cApi rApi v st s ho]; simp⟩
    · by_cases hq : r = some "quotaExceeded"
      · subst hq
        exact ⟨[], by rw [processVideo_quota cApi rApi v st s ho]; simp⟩
      · exact ⟨[], by rw [processVideo_otherHttp cApi rApi v st s r ho hd hq]; simp⟩
  | exc m =>
    exact ⟨[], by rw [processVideo_exc cApi rApi v st m ho]; simp⟩

/-- The loop only appends to the master comment sequence. -/
theorem mainLoop_master (cApi : String → FetchOutcome (List RawThread))
    (rApi : String → FetchOutcome (List RawReply)) (vs : List Video) (st : LoopState) :
    ∃ d, (mainLoop cApi rApi vs st).masterComments = st.masterComments ++ d := by
  induction vs generalizing st with
  | nil => exact ⟨[], by simp [mainLoop]⟩
  | cons w rest ih =>
    cases hc : (processVideo cApi rApi w st).2 with
    | true =>
      rw [mainLoop_cons_continue cApi rApi w rest st hc]
      obtain ⟨d1, h1⟩ := processVideo_master cApi rApi w st
      obtain ⟨d2, h2⟩ := ih (processVideo cApi rApi w st).1
      exact ⟨d1 ++ d2, by rw [h2, h1, List.append_assoc]⟩
    | false =>
      rw [mainLoop_cons_break cApi rApi w rest st hc]
      exact processVideo_master cApi rApi w st

/-- The per-video step preserves the files-equal-masters invariant. -/
theorem processVideo_inv (cApi : String → FetchOutcome (List RawThread))
    (rApi : String → FetchOutcome (List RawReply)) (v : Video) (st : LoopState)
    (h : filesInv st) : filesInv (processVideo cApi rApi v st).1 := by
  cases ho : cApi v.id with
  | ok items => rw [processVideo_ok cApi rApi v st items ho]; exact ⟨rfl, rfl⟩
  | httpError s r =>
    by_cases hd : r = some "commentsDisabled"
    · subst hd; rw [processVideo_disabled cApi rApi v st s ho]; exact h
    · by_cases hq : r = some "quotaExceeded"
      · subst hq; rw [processVideo_quota cApi rApi v st s ho]; exact h
      · rw [processVideo_otherHttp cApi rApi v st s r ho hd hq]; exact h
  | exc m => rw [processVideo_exc cApi rApi v st m ho]; exact h

/-- The loop preserves the files-equal-masters invariant. -/
theorem mainLoop_inv (cApi : String → FetchOutcome (List RawThread))
    (rApi : String → FetchOutcome (List RawReply)) (vs : List Video) (st : LoopState)
    (h : filesInv st) : filesInv (mainLoop cApi rApi vs st) := by
  induction vs generalizing st with
  | nil => exact h
  | cons w rest ih =>
    cases hc : (processVideo cApi rApi w st).2 with
    | true =>
      rw [mainLoop_cons_continue cApi rApi w rest st hc]
      exact ih _ (processVideo_inv cApi rApi w st h)
    | false =>
      rw [mainLoop_cons_break cApi rApi w rest st hc]
      exact processVideo_inv cApi rApi w st h

/-- If a run of the loop ends without the quota-stop flag, then no video of
its worklist had a quota-exhausted comment fetch, and every video that
successfully yielded a nonempty page of threads has its link in the final
master comment sequence. -/
theorem mainLoop_no_quota (cApi : String → FetchOutcome (List RawThread))
    (rApi : String → FetchOutcome (List RawReply)) (vs : List Video) (st : LoopState)
    (hst : st.stoppedByQuota = false)
    (hfin : (mainLoop cApi rApi vs st).stoppedByQuota = false) :
    ∀ v ∈ vs, (∀ s, cApi v.id ≠ .httpError s (some "quotaExceeded"))
      ∧ (∀ items, cApi v.id = .ok items → items ≠ [] →
          create_video_link v.id
            ∈ (mainLoop cApi rApi vs st).masterComments.map (fun c => c.videoLink)) := by
  induction vs generalizing st with
  | nil => intro v hv; cases hv
  | cons w rest ih =>
    cases hc : (processVideo cApi rApi w st).2 with
    | false =>
      exfalso
      rw [mainLoop_cons_break cApi rApi w rest st hc,
        processVideo_break_flag cApi rApi w st hc] at hfin
      exact Bool.noConfusion hfin
    | true =>
      rw [mainLoop_cons_continue cApi rApi w rest st hc] at hfin ⊢
      have hst' : (processVideo cApi rApi w st).1.stoppedByQuota = false := by
        cases hfl : (processVideo cApi rApi w st).1.stoppedByQuota with
        | false => rfl
        | true =>
          rw [mainLoop_flag_mono cApi rApi rest _ hfl] at hfin
          exact Bool.noConfusion hfin
      intro v hv
      rcases List.mem_cons.mp hv with hv | hv
      · subst hv
        constructor
        · intro s heq
          rw [processVideo_quota cApi rApi v st s heq] at hc
          simp at hc
        · intro items heq hne
          obtain ⟨d, hd2⟩ := mainLoop_master cApi rApi rest (processVideo cApi rApi v st).1
          rw [hd2, processVideo_ok cApi rApi v st items heq]
          rcases List.exists_cons_of_ne_nil hne with ⟨t, ts, rfl⟩
          simp [fetch_video_comments]
      · exact ih _ hst' hfin v hv

/-- A run over inert videos changes neither the master sequences nor the
persisted files. -/
theorem processVideo_inert (cApi : String → FetchOutcome (List RawThread))
    (rApi : String → FetchOutcome (List RawReply)) (v : Video) (st : LoopState)
    (ho : inertOutcome (cApi v.id)) (hinv : filesInv st) :
    (processVideo cApi rApi v st).1.masterComments = st.masterComments
    ∧ (processVideo cApi rApi v st).1.masterSubComments = st.masterSubComments
    ∧ (processVideo cApi rApi v st).1.commentsFile = st.commentsFile
    ∧ (processVideo cApi rApi v st).1.subCommentsFile = st.subCommentsFile
    ∧ (processVideo cApi rApi v st).2 = true := by
  obtain ⟨hq, hempty⟩ := ho
  cases ho2 : cApi v.id with
  | ok items =>
    have hitems : items = [] := hempty items ho2
    subst hitems
    rw [processVideo_ok cApi rApi v st [] ho2]
    refine ⟨?_, ?_, ?_, ?_, rfl⟩ <;>
      simp [fetch_video_comments, hinv.1, hinv.2]
  | httpError s r =>
    by_cases hd : r = some "commentsDisabled"
    · subst hd
      rw [processVideo_disabled cApi rApi v st s ho2]
      exact ⟨rfl, rfl, rfl, rfl, rfl⟩
    · by_cases hqr : r = some "quotaExceeded"
      · exfalso; subst hqr; exact hq s ho2
      · rw [processVideo_otherHttp cApi rApi v st s r ho2 hd hqr]
        exact ⟨rfl, rfl, rfl, rfl, rfl⟩
  | exc m =>
    rw [processVideo_exc cApi rApi v st m ho2]
    exact ⟨rfl, rfl, rfl, rfl, rfl⟩

/-- Running the loop over a worklist of inert videos leaves the master
sequences and the persisted files unchanged. -/
theorem mainLoop_inert (cApi : String → FetchOutcome (List RawThread))
    (rApi : String → FetchOutcome (List RawReply)) (vs : List Video) (st : LoopState)
    (h : ∀ v ∈ vs, inertOutcome (cApi v.id)) (hinv : filesInv st) :
    (mainLoop cApi rApi vs st).masterComments = st.masterComments
    ∧ (mainLoop cApi rApi vs st).masterSubComments = st.masterSubComments
    ∧ (mainLoop cApi rApi vs st).commentsFile = st.commentsFile
    ∧ (mainLoop cApi rApi vs st).subCommentsFile = st.subCommentsFile := by
  induction vs generalizing st with
  | nil => exact ⟨rfl, rfl, rfl, rfl⟩
  | cons w rest ih =>
    obtain ⟨h1, h2, h3, h4, h5⟩ :=
      processVideo_inert cApi rApi w st (h w (by simp)) hinv
    rw [mainLoop_cons_continue cApi rApi w rest st h5]
    have hinv' : filesInv (processVideo cApi rApi w st).1 :=
      processVideo_inv cApi rApi w st hinv
    obtain ⟨g1, g2, g3, g4⟩ := ih _ (fun v hv => h v (by simp [hv])) hinv'
    exact ⟨g1.trans h1, g2.trans h2, g3.trans h3, g4.trans h4⟩

/-- With no persisted comments every video is in the worklist. -/
theorem worklistFor_nil (videos : List Video) : worklistFor videos [] = videos := by
  simp [worklistFor]

/-- Counterexample to C3 as stated: for a channel with one video whose
comment fetch succeeds with zero threads, the first run persists no comment
carrying the video's link, so the second run's worklist is the whole video
list again — not empty.  (The master sequences are nevertheless unchanged;
only the "because the worklist is empty" part of the claim is false.) -/
theorem second_worklist_not_empty :
    worklistFor [⟨"a", "T"⟩]
        (runPipeline cApiNoComments rApiEmpty [⟨"a", "T"⟩] [] []).commentsFile
      = [⟨"a", "T"⟩]
    ∧ ([(⟨"a", "T"⟩ : Video)] : List Video) ≠ [] := by
  constructor
  · decide
  · decide

/-- C3 (amended): if the first run from empty state is not stopped by the
quota, a second run over the same video list with the same fetch outcomes
leaves the master comment and reply sequences and both persisted files
exactly as the first run left them — even though its worklist may be
nonempty (videos that contributed no comments are re-fetched and contribute
nothing again). -/
theorem idempotent_resume (cApi : String → FetchOutcome (List RawThread))
    (rApi : String → FetchOutcome (List RawReply)) (videos : List Video)
    (h : (runPipeline cApi rApi videos [] []).stoppedByQuota = false) :
    (runPipeline cApi rApi videos
        (runPipeline cApi rApi videos [] []).commentsFile
        (runPipeline cApi rApi videos [] []).subCommentsFile).masterComments
      = (runPipeline cApi rApi videos [] []).masterComments
    ∧ (runPipeline cApi rApi videos
        (runPipeline cApi rApi videos [] []).commentsFile
        (runPipeline cApi rApi videos [] []).subCommentsFile).masterSubComments
      = (runPipeline cApi rApi videos [] []).masterSubComments
    ∧ (runPipeline cApi rApi videos
        (runPipeline cApi rApi videos [] []).commentsFile
        (runPipeline cApi rApi videos [] []).subCommentsFile).commentsFile
      = (runPipeline cApi rApi videos [] []).commentsFile
    ∧ (runPipeline cApi rApi videos
        (runPipeline cApi rApi videos [] []).commentsFile
        (runPipeline cApi rApi videos [] []).subCommentsFile).subCommentsFile
      = (runPipeline cApi rApi videos [] []).subCommentsFile := by
  set R1 := runPipeline cApi rApi videos [] [] with hR1def
  have hR1 : R1 = mainLoop cApi rApi videos (initialLoopState [] []) := by
    rw [hR1def, runPipeline, worklistFor_nil]
  have hinvR1 : filesInv R1 := by
    rw [hR1]
    exact mainLoop_inv cApi rApi videos (initialLoopState [] []) ⟨rfl, rfl⟩
  have hkey := mainLoop_no_quota cApi rApi videos (initialLoopState [] []) rfl
    (by rw [← hR1]; exact h)
  have hin : ∀ v ∈ worklistFor videos R1.commentsFile, inertOutcome (cApi v.id) := by
    intro v hv
    obtain ⟨hmem, hpred⟩ :
        v ∈ videos ∧ ∀ x ∈ R1.commentsFile, ¬ x.videoLink = create_video_link v.id := by
      simpa [worklistFor] using hv
    have hnotin : create_video_link v.id
        ∉ R1.commentsFile.map (fun c => c.videoLink) := by
      simpa using hpred
    obtain ⟨hq, hmem_impl⟩ := hkey v hmem
    refine ⟨hq, ?_⟩
    intro items heq
    by_contra hne
    apply hnotin
    rw [hinvR1.1, hR1]
    exact hmem_impl items heq hne
  obtain ⟨g1, g2, g3, g4⟩ := mainLoop_inert cApi rApi
    (worklistFor videos R1.commentsFile)
    (initialLoopState R1.commentsFile R1.subCommentsFile) hin ⟨rfl, rfl⟩
  simp only [initialLoopState] at g1 g2 g3 g4
  rw [runPipeline]
  exact ⟨g1.trans hinvR1.1, g2.trans hinvR1.2, g3, g4⟩

/-- Witness for C3's amended claim: one zero-comment video; the first run
does not hit the quota, and the second run leaves everything unchanged. -/
theorem idempotent_resume_witness :
    (runPipeline cApiNoComments rApiEmpty [⟨"a", "T"⟩]
        (runPipeline cApiNoComments rApiEmpty [⟨"a", "T"⟩] [] []).commentsFile
        (runPipeline cApiNoComments rApiEmpty [⟨"a", "T"⟩] [] []).subCommentsFile).masterComments
      = (runPipeline cApiNoComments rApiEmpty [⟨"a", "T"⟩] [] []).masterComments
    ∧ (runPipeline cApiNoComments rApiEmpty [⟨"a", "T"⟩]
        (runPipeline cApiNoComments rApiEmpty [⟨"a", "T"⟩] [] []).commentsFile
        (runPipeline cApiNoComments rApiEmpty [⟨"a", "T"⟩] [] []).subCommentsFile).masterSubComments
      = (runPipeline cApiNoComments rApiEmpty [⟨"a", "T"⟩] [] []).masterSubComments
    ∧ (runPipeline cApiNoComments rApiEmpty [⟨"a", "T"⟩]
        (runPipeline cApiNoComments rApiEmpty [⟨"a", "T"⟩] [] []).commentsFile
        (runPipeline cApiNoComments rApiEmpty [⟨"a", "T"⟩] [] []).subCommentsFile).commentsFile
      = (runPipeline cApiNoComments rApiEmpty [⟨"a", "T"⟩] [] []).commentsFile
    ∧ (runPipeline cApiNoComments rApiEmpty [⟨"a", "T"⟩]
        (runPipeline cApiNoComments rApiEmpty [⟨"a", "T"⟩] [] []).commentsFile
        (runPipeline cApiNoComments rApiEmpty [⟨"a", "T"⟩] [] []).subCommentsFile).subCommentsFile
      = (runPipeline cApiNoComments rApiEmpty [⟨"a", "T"⟩] [] []).subCommentsFile :=
  idempotent_resume cApiNoComments rApiEmpty [⟨"a", "T"⟩] (by decide)
